import Mathlib

/-!
# Agario-in-space: game-object transform, animation, collision and session logic

A shallow embedding of `453-skeleton/main.cpp`.

* C++ `float` values are elements of a linearly ordered field `α` (exact
  arithmetic); the development is generic in `α`, so every definition can be
  run over `ℚ` and every theorem also holds over `ℝ`.
* The C math library (`M_PI`, `cos`, `sin`, `atan`) is not part of the
  repository; it is passed as a `MathLib α` value.
* The process-scope globals of `main.cpp` are the record `Globals`; functions
  that take C++ references return the updated values.
* `score` is a C++ `int` (32 bits); it is an `Int` here and `score++` is the
  increment followed by the two's-complement wrap `wrapInt32`, which is what the
  compiled increment does at `INT_MAX`.
-/

namespace AgarioInSpace

/-! ## External constants and functions -/

/-- The parts of `math.h` used by `main.cpp`: `M_PI`, `cos`, `sin`, `atan`. -/
structure MathLib (α : Type) where
  pi : α
  cos : α → α
  sin : α → α
  atan : α → α

/-- Key code `GLFW_KEY_R` of `glfw3.h`. -/
def GLFW_KEY_R : Int := 82
/-- Key code `GLFW_KEY_UP` of `glfw3.h`. -/
def GLFW_KEY_UP : Int := 265
/-- Key code `GLFW_KEY_DOWN` of `glfw3.h`. -/
def GLFW_KEY_DOWN : Int := 264
/-- Key code `GLFW_KEY_W` of `glfw3.h`. -/
def GLFW_KEY_W : Int := 87
/-- Key code `GLFW_KEY_S` of `glfw3.h`. -/
def GLFW_KEY_S : Int := 83
/-- Action code `GLFW_PRESS` of `glfw3.h`. -/
def GLFW_PRESS : Int := 1
/-- Action code `GLFW_REPEAT` of `glfw3.h`. -/
def GLFW_REPEAT : Int := 2

/-! ## Vectors and matrices (glm) -/

/-- The glm type `vec2`. -/
structure Vec2 (α : Type) where
  x : α
  y : α

/-- The glm type `vec3`. -/
structure Vec3 (α : Type) where
  x : α
  y : α
  z : α

/-- The glm type `mat4`, column-major as in glm: `m c r` is `m[c][r]`. -/
abbrev Mat4 (α : Type) := Fin 4 → Fin 4 → α

section Defs

variable {α : Type} [LinearOrderedField α]

/-- The matrix `mat4(1.0f)`: the identity. -/
def Mat4.identity : Mat4 α :=
  ![![1, 0, 0, 0], ![0, 1, 0, 0], ![0, 0, 1, 0], ![0, 0, 0, 1]]

/-- The glm product `m1 * m2` of two `mat4`: column `c` of the result is
`m1` applied to column `c` of `m2`. -/
def Mat4.mul (m1 m2 : Mat4 α) : Mat4 α :=
  fun c r => m1 0 r * m2 c 0 + m1 1 r * m2 c 1 + m1 2 r * m2 c 2 + m1 3 r * m2 c 3

/-! ## Globals -/

/-- The value a 32-bit `int` holds for the arithmetic result `x`: the
two's-complement wrap into `-2147483648 .. 2147483647`. -/
def wrapInt32 (x : Int) : Int :=
  (x + 2147483648) % 4294967296 - 2147483648

/-- The mutable process-scope globals of `main.cpp`. -/
structure Globals (α : Type) where
  animatingShipRotation : Bool
  animAnglePerFrame : α
  currFrameCount : α
  score : Int
  isGameOver : Bool

/-- The constant `totalAnimationFrames = 10.0f`. -/
def totalAnimationFrames : α := 10

/-- The global `translationDist = 0.01f` (never assigned after initialisation). -/
def translationDist : α := 1 / 100

/-- The global `defaultScaleFactor = 1.2f` (never assigned after initialisation). -/
def defaultScaleFactor : α := 6 / 5

/-! ## Angle helpers -/

/-- The function `getCCWAngleFromXAxis`.  The four tests are exhaustive; the
final `else` stands for the C++ fall-through that leaves `angle` unassigned. -/
def getCCWAngleFromXAxis (M : MathLib α) (x_distFromCentreOfShip y_distFromCentreOfShip
    arcTanAngle : α) : α :=
  let positiveX : Bool := decide (x_distFromCentreOfShip > 0)
  let positiveY : Bool := decide (y_distFromCentreOfShip > 0)
  if positiveX && positiveY then arcTanAngle
  else if !positiveX && positiveY then M.pi + arcTanAngle
  else if !positiveX && !positiveY then M.pi + arcTanAngle
  else if positiveX && !positiveY then M.pi * 2 + arcTanAngle
  else 0

/-- The function `getNormalizedAngle`: one conditional subtraction of `2π`. -/
def getNormalizedAngle (M : MathLib α) (angle : α) : α :=
  if angle ≥ M.pi * 2 then angle - M.pi * 2 else angle

/-! ## GameObject -/

/-- The struct `GameObject` without its rendering resource `geometry`. -/
structure GameObject (α : Type) where
  transformationMatrix : Mat4 α
  translateMatrix : Mat4 α
  scaleMatrix : Mat4 α
  rotateMatrix : Mat4 α
  position : Vec3 α
  originalPosition : Vec3 α
  theta : α
  prevTheta : α
  scale : Vec2 α
  originalScale : Vec2 α
  isActive : Bool

/-- The method `GameObject::setTranslateMatrix`. -/
def GameObject.setTranslateMatrix (g : GameObject α) : GameObject α :=
  { g with translateMatrix :=
      ![![1, 0, 0, 0], ![0, 1, 0, 0], ![0, 0, 1, 0], ![g.position.x, g.position.y, 0, 1]] }

/-- The method `GameObject::setScaleMatrix`. -/
def GameObject.setScaleMatrix (g : GameObject α) : GameObject α :=
  { g with scaleMatrix :=
      ![![g.scale.x, 0, 0, 0], ![0, g.scale.y, 0, 0], ![0, 0, 1, 0], ![0, 0, 0, 1]] }

/-- The method `GameObject::setRotateMatrix`. -/
def GameObject.setRotateMatrix (g : GameObject α) (M : MathLib α) : GameObject α :=
  { g with rotateMatrix :=
      ![![M.cos g.theta, -M.sin g.theta, 0, 0], ![M.sin g.theta, M.cos g.theta, 0, 0],
        ![0, 0, 1, 0], ![0, 0, 0, 1]] }

/-- The method `GameObject::setTransformationMatrix` (the returned matrix is the
field `transformationMatrix` of the result). -/
def GameObject.setTransformationMatrix (g : GameObject α) : GameObject α :=
  { g with transformationMatrix :=
      Mat4.mul (Mat4.mul g.translateMatrix g.rotateMatrix) g.scaleMatrix }

/-- The constructor `GameObject(_g, xCoord, yCoord, scale)`.  The three
component matrices are default-constructed and then set in the body. -/
def GameObject.new (M : MathLib α) (xCoord yCoord : α) (scale : Vec2 α) : GameObject α :=
  let g0 : GameObject α :=
    { transformationMatrix := Mat4.identity
      translateMatrix := Mat4.identity
      scaleMatrix := Mat4.identity
      rotateMatrix := Mat4.identity
      position := ⟨xCoord, yCoord, 0⟩
      originalPosition := ⟨xCoord, yCoord, 0⟩
      theta := 0
      prevTheta := 0
      scale := scale
      originalScale := scale
      isActive := true }
  ((g0.setTranslateMatrix.setScaleMatrix).setRotateMatrix M).setTransformationMatrix

/-- The method `GameObject::rotateGameObject`. -/
def GameObject.rotateGameObject (g : GameObject α) (M : MathLib α) (newTheta : α) :
    GameObject α :=
  ({ g with theta := getNormalizedAngle M newTheta }).setRotateMatrix M

/-- The method `GameObject::translateGameObject`. -/
def GameObject.translateGameObject (g : GameObject α) (xInc yInc : α) : GameObject α :=
  ({ g with position := ⟨g.position.x + xInc, g.position.y + yInc, g.position.z⟩ }).setTranslateMatrix

/-- The method `GameObject::scaleGameObject`. -/
def GameObject.scaleGameObject (g : GameObject α) (xInc yInc : α) : GameObject α :=
  ({ g with scale := ⟨g.scale.x * xInc, g.scale.y * yInc⟩ }).setScaleMatrix

/-- The method `GameObject::setStatus`. -/
def GameObject.setStatus (g : GameObject α) (status : Bool) : GameObject α :=
  { g with isActive := status }

/-- The method `GameObject::resetAllStateToDefault`. -/
def GameObject.resetAllStateToDefault (g : GameObject α) (M : MathLib α) : GameObject α :=
  let g1 : GameObject α :=
    { g with theta := 0, prevTheta := 0, position := g.originalPosition, scale := g.originalScale }
  ((((g1.setTranslateMatrix).setScaleMatrix).setRotateMatrix M).setTransformationMatrix).setStatus true

/-- The function `resetGame`: resets the ship and every diamond. -/
def resetGame (M : MathLib α) (ship : GameObject α) (diamonds : List (GameObject α)) :
    GameObject α × List (GameObject α) :=
  (ship.resetAllStateToDefault M, diamonds.map (fun diamond => diamond.resetAllStateToDefault M))

/-! ## Session state and callbacks -/

/-- The whole mutable program state: the globals, the ship and the diamonds of
`main`, and the members `location` and `prevLocation` of `MyCallbacks`. -/
structure World (α : Type) where
  g : Globals α
  ship : GameObject α
  diamonds : List (GameObject α)
  location : Vec2 α
  prevLocation : Vec2 α

/-- The method `MyCallbacks::keyCallback`. -/
def keyCallback (M : MathLib α) (w : World α) (key _scancode action _mods : Int) : World α :=
  let angleFromXAxis := w.ship.theta + M.pi / 2
  if key = GLFW_KEY_R ∧ action = GLFW_PRESS then
    { w with
      g := { w.g with isGameOver := false, score := 0 }
      ship := (resetGame M w.ship w.diamonds).1
      diamonds := (resetGame M w.ship w.diamonds).2 }
  else if (key = GLFW_KEY_UP ∨ key = GLFW_KEY_W) ∧ (action = GLFW_PRESS ∨ action = GLFW_REPEAT) then
    { w with ship := (w.ship.translateGameObject
        (-translationDist * M.cos angleFromXAxis) (translationDist * M.sin angleFromXAxis)) }
  else if (key = GLFW_KEY_DOWN ∨ key = GLFW_KEY_S) ∧ (action = GLFW_PRESS ∨ action = GLFW_REPEAT) then
    { w with ship := (w.ship.translateGameObject
        (translationDist * M.cos angleFromXAxis) (-translationDist * M.sin angleFromXAxis)) }
  else w

/-- The method `MyCallbacks::convertLocation` (its result is stored in `location`). -/
def convertLocation (x y : α) : Vec2 α :=
  let s : Vec2 α := ⟨x, y⟩
  let s : Vec2 α := ⟨s.x / 800, s.y / 800⟩
  let s : Vec2 α := ⟨s.x + (-1 / 2), s.y + (-1 / 2)⟩
  let s : Vec2 α := ⟨s.x, -s.y⟩
  ⟨s.x * 2, s.y * 2⟩

/-- The quotient `a / b` of exact arithmetic, defined only for a non-zero divisor. -/
def checkedDiv (a b : α) : Option α :=
  if b = 0 then none else some (a / b)

/-- Lines 269-271 of `cursorPosCallback`: the animator trigger for the target
`angleFromYAxis` and the baseline `prevTheta` of the ship. -/
def rotationTrigger (g : Globals α) (prevTheta angleFromYAxis : α) : Globals α :=
  let angleDiff := angleFromYAxis - prevTheta
  { g with animatingShipRotation := true, animAnglePerFrame := angleDiff / totalAnimationFrames }

/-- Lines 258-262 of `cursorPosCallback`: quadrant correction, the shift by
`M_PI_2` and the shorter-rotation test against the baseline `prevTheta`. -/
def targetAngle (M : MathLib α) (prevTheta x_distFromCentreOfShip y_distFromCentreOfShip
    arcTanAngle : α) : α :=
  let angleFromYAxis :=
    getCCWAngleFromXAxis M x_distFromCentreOfShip y_distFromCentreOfShip arcTanAngle - M.pi / 2
  if |angleFromYAxis - prevTheta| > M.pi then -((M.pi * 2) - angleFromYAxis)
  else angleFromYAxis

/-- Lines 258-271 of `cursorPosCallback`, for a given value of `arcTanAngle`. -/
def cursorPosCallbackWith (M : MathLib α) (w : World α) (x_distFromCentreOfShip
    y_distFromCentreOfShip arcTanAngle : α) : World α :=
  let angleFromYAxis :=
    targetAngle M w.ship.prevTheta x_distFromCentreOfShip y_distFromCentreOfShip arcTanAngle
  { w with g := rotationTrigger w.g w.ship.prevTheta angleFromYAxis }

/-- The method `MyCallbacks::cursorPosCallback`.  The result is `none` when the
quotient of line 256 has a zero divisor, where exact arithmetic gives it no value. -/
def cursorPosCallback (M : MathLib α) (w : World α) (xpos ypos : α) : Option (World α) :=
  let location := convertLocation xpos ypos
  let w : World α := { w with location := location }
  if w.location.x ≠ w.prevLocation.x ∨ w.location.y ≠ w.prevLocation.y then
    let w : World α := { w with prevLocation := w.location }
    let x_distFromCentreOfShip := w.location.x - w.ship.position.x
    let y_distFromCentreOfShip := w.location.y - w.ship.position.y
    match checkedDiv y_distFromCentreOfShip x_distFromCentreOfShip with
    | none => none
    | some q =>
      some (cursorPosCallbackWith M w x_distFromCentreOfShip y_distFromCentreOfShip (M.atan q))
  else some w

/-- The function `animateShipRotation`. -/
def animateShipRotation (M : MathLib α) (g : Globals α) (ship : GameObject α) :
    Globals α × GameObject α :=
  if g.animatingShipRotation then
    let g : Globals α := { g with currFrameCount := g.currFrameCount + 1 }
    let newAngle := -(ship.prevTheta + g.animAnglePerFrame * g.currFrameCount)
    let ship := ship.rotateGameObject M newAngle
    if totalAnimationFrames = g.currFrameCount then
      ({ g with animatingShipRotation := false, currFrameCount := 0 },
        { ship with prevTheta := -ship.theta })
    else (g, ship)
  else (g, ship)

/-- The function `animateShipCollisionEvent`. -/
def animateShipCollisionEvent (g : Globals α) (ship diamond : GameObject α) :
    Globals α × GameObject α × GameObject α :=
  let g : Globals α := { g with score := wrapInt32 (g.score + 1) }
  let diamond := diamond.setStatus false
  let ship := ship.scaleGameObject defaultScaleFactor defaultScaleFactor
  if g.score = 3 then
    ({ g with isGameOver := true }, ship.setStatus false, diamond)
  else (g, ship, diamond)

/-- The function `checkShipDiamondCollision`. -/
def checkShipDiamondCollision (ship diamond : GameObject α) : Bool :=
  if ship.isActive && diamond.isActive then
    let collisionX : Bool := decide (ship.position.x + ship.scale.x ≥ diamond.position.x) &&
      decide (diamond.position.x + diamond.scale.x ≥ ship.position.x)
    let collisionY : Bool := decide (ship.position.y + ship.scale.y ≥ diamond.position.y) &&
      decide (diamond.position.y + diamond.scale.y ≥ ship.position.y)
    collisionX && collisionY
  else false

/-- The function `drawGameObject`, as far as it changes the game object: an
active object gets its composite matrix recomputed. -/
def drawGameObject (gameObject : GameObject α) : GameObject α :=
  if gameObject.isActive then gameObject.setTransformationMatrix else gameObject

/-- The function `init3Pickups`. -/
def init3Pickups (M : MathLib α) (scale : Vec2 α) : List (GameObject α) :=
  [GameObject.new M (1 / 2) (1 / 2) scale, GameObject.new M (-1 / 2) (1 / 2) scale,
    GameObject.new M (1 / 2) (-1 / 2) scale]

/-- The body of the collision loop of `main` (lines 400-404) for one diamond. -/
def collisionIter (g : Globals α) (ship diamond : GameObject α) :
    Globals α × GameObject α × GameObject α :=
  if checkShipDiamondCollision ship diamond then animateShipCollisionEvent g ship diamond
  else (g, ship, diamond)

/-- The collision loop of `main` (lines 400-404) over the diamonds, in order. -/
def collisionLoop (g : Globals α) (ship : GameObject α) :
    List (GameObject α) → Globals α × GameObject α × List (GameObject α)
  | [] => (g, ship, [])
  | diamond :: rest =>
    let r := collisionIter g ship diamond
    let r2 := collisionLoop r.1 r.2.1 rest
    (r2.1, r2.2.1, r.2.2 :: r2.2.2)

/-- One collision pass of the frame loop on the whole state. -/
def collisionPass (w : World α) : World α :=
  let r := collisionLoop w.g w.ship w.diamonds
  { w with g := r.1, ship := r.2.1, diamonds := r.2.2 }

/-- The animator tick of the frame loop (line 411) on the whole state. -/
def animatorTick (M : MathLib α) (w : World α) : World α :=
  let r := animateShipRotation M w.g w.ship
  { w with g := r.1, ship := r.2 }

/-- The draw calls of the frame loop (lines 413-416) on the whole state. -/
def drawPass (w : World α) : World α :=
  { w with ship := drawGameObject w.ship, diamonds := w.diamonds.map drawGameObject }

/-- The state at the first iteration of the render loop of `main`: zero-initialised
globals, the ship and the three pickups as constructed there. -/
def mainInit (M : MathLib α) : World α :=
  { g := { animatingShipRotation := false, animAnglePerFrame := 0, currFrameCount := 0,
           score := 0, isGameOver := false }
    ship := GameObject.new M 0 0 ⟨9 / 100, 6 / 100⟩
    diamonds := init3Pickups M ⟨7 / 100, 7 / 100⟩
    location := ⟨0, 0⟩
    prevLocation := ⟨0, 0⟩ }

/-- The state after `n` successive calls of `animateShipRotation`. -/
def animateTicks (M : MathLib α) : Nat → Globals α × GameObject α → Globals α × GameObject α
  | 0, s => s
  | n + 1, s => animateShipRotation M (animateTicks M n s).1 (animateTicks M n s).2

/-! ## Reachable states -/

/-- The session invariant: the score is in `0..3`, and the game-over flag and the
deactivation of the ship both mark exactly the score `3`. -/
def SessionInv (g : Globals α) (ship : GameObject α) : Prop :=
  (0 ≤ g.score ∧ g.score ≤ 3) ∧ (g.isGameOver = true ↔ g.score = 3) ∧
    (ship.isActive = false ↔ g.score = 3)

/-- An initial state: score `0`, no game over, the ship and all pickups active
(any number of pickups, any geometry). -/
def Initial (w : World α) : Prop :=
  w.g.score = 0 ∧ w.g.isGameOver = false ∧ w.ship.isActive = true ∧
    ∀ d ∈ w.diamonds, d.isActive = true

/-- One event of the render loop: a collision pass, an animator tick, the draw
calls, a key event (any key and action, so movement and restart) or a cursor
event.  A cursor event whose quotient of line 256 has a zero divisor has no value
in exact arithmetic; the C++ code goes on with whatever `atan` returns for the
float quotient, and `cursorUndefined` lets that be any `arcTanAngle`. -/
inductive Step (M : MathLib α) : World α → World α → Prop
  | collision (w : World α) : Step M w (collisionPass w)
  | animator (w : World α) : Step M w (animatorTick M w)
  | draw (w : World α) : Step M w (drawPass w)
  | key (w : World α) (key scancode action mods : Int) :
      Step M w (keyCallback M w key scancode action mods)
  | cursor (w w' : World α) (xpos ypos : α) :
      cursorPosCallback M w xpos ypos = some w' → Step M w w'
  | cursorUndefined (w : World α) (xpos ypos arcTanAngle : α) :
      cursorPosCallback M w xpos ypos = none →
      Step M w (cursorPosCallbackWith M
        { w with location := convertLocation xpos ypos, prevLocation := convertLocation xpos ypos }
        ((convertLocation xpos ypos).x - w.ship.position.x)
        ((convertLocation xpos ypos).y - w.ship.position.y) arcTanAngle)

/-- The states reachable from `w0` by any sequence of events. -/
inductive Reachable (M : MathLib α) (w0 : World α) : World α → Prop
  | start : Reachable M w0 w0
  | step (w w' : World α) : Reachable M w0 w → Step M w w' → Reachable M w0 w'

/-! ## Test scenarios -/

/-- The start of scenario B: the state of `main` with the three pickups placed
on the ship. -/
def scenarioBStart (M : MathLib α) : World α :=
  { mainInit M with
    diamonds := [GameObject.new M 0 0 ⟨7 / 100, 7 / 100⟩, GameObject.new M 0 0 ⟨7 / 100, 7 / 100⟩,
      GameObject.new M 0 0 ⟨7 / 100, 7 / 100⟩] }

/-- Scenario B of the spec: the ship of `main` with three pickups placed on it,
after one collision pass (three collisions in sequence). -/
def scenarioB (M : MathLib α) : World α :=
  collisionPass (scenarioBStart M)

end Defs

/-! ## Collision test -/

theorem wrapInt32_of_range (x : Int) (hlo : -2147483648 ≤ x) (hhi : x < 2147483648) :
    wrapInt32 x = x := by
  unfold wrapInt32
  omega

section Theorems

variable {α : Type} [LinearOrderedField α]

theorem check_true_active (ship d : GameObject α)
    (h : checkShipDiamondCollision ship d = true) :
    ship.isActive = true ∧ d.isActive = true := by
  unfold checkShipDiamondCollision at h
  cases hs : ship.isActive <;> cases hd : d.isActive <;> simp [hs, hd] at h ⊢

theorem collisionIter_of_inactive (g : Globals α) (ship d : GameObject α)
    (h : d.isActive = false) : collisionIter g ship d = (g, ship, d) := by
  have hc : checkShipDiamondCollision ship d = false := by
    simp [checkShipDiamondCollision, h]
  simp [collisionIter, hc]

/-- C2: `checkShipDiamondCollision a b` is true exactly when both objects are
active and the four interval comparisons of the source hold; it is false as soon
as one of the two is inactive; and it changes nothing: the embedding of the
function returns only the boolean, and a loop iteration whose test is false hands
back the globals and both objects as they were. -/
theorem checkShipDiamondCollision_iff (a b : GameObject α) :
    (checkShipDiamondCollision a b = true ↔
      (a.isActive = true ∧ b.isActive = true ∧
        a.position.x + a.scale.x ≥ b.position.x ∧ b.position.x + b.scale.x ≥ a.position.x ∧
        a.position.y + a.scale.y ≥ b.position.y ∧ b.position.y + b.scale.y ≥ a.position.y)) ∧
    ((a.isActive = false ∨ b.isActive = false) → checkShipDiamondCollision a b = false) ∧
    (∀ g : Globals α, checkShipDiamondCollision a b = false →
      collisionIter g a b = (g, a, b)) := by
  refine ⟨?_, ?_, ?_⟩
  · unfold checkShipDiamondCollision
    cases a.isActive <;> cases b.isActive <;> simp [and_assoc]
  · rintro (h | h) <;> simp [checkShipDiamondCollision, h]
  · intro g h
    simp [collisionIter, h]

/-- C8: collision symmetry.  `checkShipDiamondCollision a b` and
`checkShipDiamondCollision b a` agree for all game objects, in particular for all
active ones. -/
theorem checkShipDiamondCollision_symm (a b : GameObject α) :
    checkShipDiamondCollision a b = checkShipDiamondCollision b a := by
  unfold checkShipDiamondCollision
  cases a.isActive <;> cases b.isActive <;> simp [Bool.and_comm]

/-! ## Collision pass and scoring -/

theorem collisionIter_score (g : Globals α) (ship d : GameObject α)
    (hlo : -2147483648 ≤ g.score) (hhi : g.score + 1 < 2147483648) :
    (collisionIter g ship d).1.score =
      g.score +
        (if (d.isActive && !(collisionIter g ship d).2.2.isActive) = true then 1 else 0) := by
  have hw : wrapInt32 (g.score + 1) = g.score + 1 :=
    wrapInt32_of_range _ (by omega) hhi
  unfold collisionIter
  by_cases h : checkShipDiamondCollision ship d = true
  · have hd := (check_true_active ship d h).2
    simp only [h, if_true]
    unfold animateShipCollisionEvent
    dsimp only
    rw [hw]
    split_ifs <;> simp_all [GameObject.setStatus]
  · simp [h]

theorem collisionLoop_length (g : Globals α) (ship : GameObject α)
    (ds : List (GameObject α)) : (collisionLoop g ship ds).2.2.length = ds.length := by
  induction ds generalizing g ship with
  | nil => rfl
  | cons d rest ih => simp [collisionLoop, ih]

theorem collisionLoop_score (g : Globals α) (ship : GameObject α)
    (ds : List (GameObject α)) (hlo : -2147483648 ≤ g.score)
    (hhi : g.score + ds.length < 2147483648) :
    (collisionLoop g ship ds).1.score = g.score +
      ((List.zip ds (collisionLoop g ship ds).2.2).filter
        (fun p => p.1.isActive && !p.2.isActive)).length := by
  induction ds generalizing g ship with
  | nil => simp [collisionLoop]
  | cons d rest ih =>
    simp only [List.length_cons, Nat.cast_succ] at hhi
    have hi := collisionIter_score g ship d hlo (by omega)
    have hstep : g.score ≤ (collisionIter g ship d).1.score ∧
        (collisionIter g ship d).1.score ≤ g.score + 1 := by
      rw [hi]
      split_ifs <;> omega
    simp only [collisionLoop, List.zip_cons_cons, List.filter_cons]
    rw [ih _ _ (by omega) (by omega), hi]
    split_ifs
    · simp; ring
    · simp

theorem collisionLoop_inactive_stays (g : Globals α) (ship : GameObject α)
    (ds : List (GameObject α)) :
    ∀ p ∈ List.zip ds (collisionLoop g ship ds).2.2,
      p.1.isActive = false → p.2.isActive = false := by
  induction ds generalizing g ship with
  | nil => simp [collisionLoop]
  | cons d rest ih =>
    intro p hp hpa
    simp only [collisionLoop, List.zip_cons_cons, List.mem_cons] at hp
    rcases hp with rfl | hp
    · rw [collisionIter_of_inactive g ship d hpa]; exact hpa
    · exact ih _ _ p hp hpa

theorem collisionLoop_skip (g : Globals α) (ship : GameObject α)
    (pre post : List (GameObject α)) (d : GameObject α) (h : d.isActive = false) :
    collisionLoop g ship (pre ++ d :: post) =
      ((collisionLoop g ship (pre ++ post)).1, (collisionLoop g ship (pre ++ post)).2.1,
        (collisionLoop g ship (pre ++ post)).2.2.take pre.length ++
          d :: (collisionLoop g ship (pre ++ post)).2.2.drop pre.length) := by
  induction pre generalizing g ship with
  | nil => simp [collisionLoop, collisionIter_of_inactive g ship d h]
  | cons e pre ih =>
    simp only [List.cons_append, collisionLoop, List.length_cons, List.take_succ_cons,
      List.drop_succ_cons, List.append_eq]
    rw [ih]

/-- C4 (as amended): scoring monotonicity.  For every state whose score `s` is a
32-bit `int` value with `s + (number of pickups) ≤ INT_MAX`, and every list of
pickups, one collision pass does not decrease the score and turns no inactive
pickup active; the new score is the old one plus the number of pickups that were
active before the pass and are inactive after it; and a pickup that is inactive
when the pass starts changes nothing: its loop iteration returns globals, ship
and pickup as they were, and the pass gives the same globals and ship as the pass
over the list without that pickup, with the pickup left in its place unchanged. -/
theorem collisionPass_scoring (g : Globals α) (ship : GameObject α)
    (ds : List (GameObject α)) (hlo : -2147483648 ≤ g.score)
    (hhi : g.score + ds.length ≤ 2147483647) :
    g.score ≤ (collisionLoop g ship ds).1.score ∧
    (collisionLoop g ship ds).2.2.length = ds.length ∧
    (∀ p ∈ List.zip ds (collisionLoop g ship ds).2.2,
      p.1.isActive = false → p.2.isActive = false) ∧
    (collisionLoop g ship ds).1.score = g.score +
      ((List.zip ds (collisionLoop g ship ds).2.2).filter
        (fun p => p.1.isActive && !p.2.isActive)).length ∧
    (∀ (g1 : Globals α) (ship1 d : GameObject α), d.isActive = false →
      collisionIter g1 ship1 d = (g1, ship1, d)) ∧
    (∀ (pre post : List (GameObject α)) (d : GameObject α),
      ds = pre ++ d :: post → d.isActive = false →
      collisionLoop g ship ds =
        ((collisionLoop g ship (pre ++ post)).1, (collisionLoop g ship (pre ++ post)).2.1,
          (collisionLoop g ship (pre ++ post)).2.2.take pre.length ++
            d :: (collisionLoop g ship (pre ++ post)).2.2.drop pre.length)) := by
  have hs := collisionLoop_score g ship ds hlo (by omega)
  refine ⟨?_, collisionLoop_length g ship ds, collisionLoop_inactive_stays g ship ds,
    hs, fun g1 ship1 d h => collisionIter_of_inactive g1 ship1 d h, ?_⟩
  · rw [hs]
    omega
  · rintro pre post d rfl h
    exact collisionLoop_skip g ship pre post d h

/-! ## Session invariant -/

theorem collisionIter_inv (g : Globals α) (ship d : GameObject α) (h : SessionInv g ship) :
    SessionInv (collisionIter g ship d).1 (collisionIter g ship d).2.1 := by
  unfold collisionIter
  by_cases hc : checkShipDiamondCollision ship d = true
  · have ha := (check_true_active ship d hc).1
    obtain ⟨⟨h0, h3⟩, hg, hs⟩ := h
    have hne : g.score ≠ 3 := fun h3 => by
      have := hs.2 h3
      simp [ha] at this
    have hgo : g.isGameOver = false := by
      cases hgo : g.isGameOver
      · rfl
      · exact absurd (hg.1 hgo) hne
    have hw : wrapInt32 (g.score + 1) = g.score + 1 :=
      wrapInt32_of_range _ (by omega) (by omega)
    simp only [hc, if_true]
    unfold animateShipCollisionEvent
    dsimp only
    rw [hw]
    by_cases h2 : g.score + 1 = 3
    · simp [h2, SessionInv, GameObject.setStatus]
    · simp only [h2, if_false]
      simp only [SessionInv, GameObject.scaleGameObject, GameObject.setScaleMatrix, ha, hgo]
      refine ⟨⟨by omega, by omega⟩, by simp [h2], by simp [h2]⟩
  · simpa [hc] using h

theorem collisionLoop_inv (g : Globals α) (ship : GameObject α) (ds : List (GameObject α))
    (h : SessionInv g ship) :
    SessionInv (collisionLoop g ship ds).1 (collisionLoop g ship ds).2.1 := by
  induction ds generalizing g ship with
  | nil => exact h
  | cons d rest ih => exact ih _ _ (collisionIter_inv g ship d h)

theorem collisionLoop_inactive_ship (g : Globals α) (ship : GameObject α)
    (ds : List (GameObject α)) (h : ship.isActive = false) :
    collisionLoop g ship ds = (g, ship, ds) := by
  induction ds with
  | nil => rfl
  | cons d rest ih =>
    have hc : checkShipDiamondCollision ship d = false := by
      simp [checkShipDiamondCollision, h]
    simp [collisionLoop, collisionIter, hc, ih]

theorem animateShipRotation_flags (M : MathLib α) (g : Globals α) (ship : GameObject α) :
    (animateShipRotation M g ship).1.score = g.score ∧
    (animateShipRotation M g ship).1.isGameOver = g.isGameOver ∧
    (animateShipRotation M g ship).2.isActive = ship.isActive := by
  unfold animateShipRotation
  dsimp only
  split_ifs <;> simp [GameObject.rotateGameObject, GameObject.setRotateMatrix]

theorem keyCallback_inv (M : MathLib α) (w : World α) (key scancode action mods : Int)
    (h : SessionInv w.g w.ship) :
    SessionInv (keyCallback M w key scancode action mods).g
      (keyCallback M w key scancode action mods).ship := by
  unfold keyCallback
  dsimp only
  split_ifs
  · simp [SessionInv, resetGame, GameObject.resetAllStateToDefault, GameObject.setStatus]
  · simpa [SessionInv, GameObject.translateGameObject, GameObject.setTranslateMatrix] using h
  · simpa [SessionInv, GameObject.translateGameObject, GameObject.setTranslateMatrix] using h
  · exact h

theorem cursorPosCallback_flags (M : MathLib α) (w w' : World α) (xpos ypos : α)
    (h : cursorPosCallback M w xpos ypos = some w') :
    w'.g.score = w.g.score ∧ w'.g.isGameOver = w.g.isGameOver ∧ w'.ship = w.ship := by
  unfold cursorPosCallback at h
  dsimp only at h
  split_ifs at h with hloc
  · split at h
    · exact absurd h (by simp)
    · injection h with h
      subst h
      simp [cursorPosCallbackWith, rotationTrigger]
  · injection h with h
    subst h
    simp

theorem step_inv (M : MathLib α) (w w' : World α) (hs : Step M w w')
    (h : SessionInv w.g w.ship) : SessionInv w'.g w'.ship := by
  cases hs with
  | collision => exact collisionLoop_inv _ _ _ h
  | animator =>
    obtain ⟨h1, h2, h3⟩ := animateShipRotation_flags M w.g w.ship
    simpa [SessionInv, animatorTick, h1, h2, h3] using h
  | draw =>
    have hd : (drawGameObject w.ship).isActive = w.ship.isActive := by
      unfold drawGameObject
      split_ifs <;> simp [GameObject.setTransformationMatrix]
    simpa [SessionInv, drawPass, hd] using h
  | key key scancode action mods => exact keyCallback_inv M w key scancode action mods h
  | cursor _ xpos ypos hc =>
    obtain ⟨h1, h2, h3⟩ := cursorPosCallback_flags M w w' xpos ypos hc
    simpa [SessionInv, h1, h2, h3] using h
  | cursorUndefined xpos ypos t hc =>
    simpa [SessionInv, cursorPosCallbackWith, rotationTrigger] using h

theorem reachable_inv (M : MathLib α) (w0 w : World α) (h0 : Initial w0)
    (hr : Reachable M w0 w) : SessionInv w.g w.ship := by
  induction hr with
  | start =>
    obtain ⟨h1, h2, h3, _⟩ := h0
    simp [SessionInv, h1, h2, h3]
  | step w w' _ hs ih => exact step_inv M w w' hs ih

/-- C3: in every state reachable from an initial state (score 0, no game over,
ship and all pickups active, any number of pickups) by collision passes, animator
ticks, draw calls, key events (movement, restart and any other key) and cursor
events, the score is in `0..3`, `isGameOver` holds exactly when the score is 3,
and the ship is inactive exactly when the score is 3; hence a collision pass in a
game-over state returns the state unchanged (score and pickups included). -/
theorem reachable_session_invariant (M : MathLib α) (w0 w : World α) (h0 : Initial w0)
    (hr : Reachable M w0 w) :
    (0 ≤ w.g.score ∧ w.g.score ≤ 3) ∧ (w.g.isGameOver = true ↔ w.g.score = 3) ∧
    (w.ship.isActive = false ↔ w.g.score = 3) ∧
    (w.g.isGameOver = true → collisionPass w = w) := by
  obtain ⟨hb, hg, hs⟩ := reachable_inv M w0 w h0 hr
  refine ⟨hb, hg, hs, fun hgo => ?_⟩
  have hia : w.ship.isActive = false := hs.2 (hg.1 hgo)
  simp [collisionPass, collisionLoop_inactive_ship w.g w.ship w.diamonds hia]

/-! ## Constructor and collision event -/

theorem GameObject.new_fields (M : MathLib α) (x y : α) (s : Vec2 α) :
    (GameObject.new M x y s).position = ⟨x, y, 0⟩ ∧
    (GameObject.new M x y s).originalPosition = ⟨x, y, 0⟩ ∧
    (GameObject.new M x y s).scale = s ∧
    (GameObject.new M x y s).originalScale = s ∧
    (GameObject.new M x y s).theta = 0 ∧
    (GameObject.new M x y s).prevTheta = 0 ∧
    (GameObject.new M x y s).isActive = true :=
  ⟨rfl, rfl, rfl, rfl, rfl, rfl, rfl⟩

theorem animateShipCollisionEvent_fields (g : Globals α) (ship d : GameObject α) :
    (animateShipCollisionEvent g ship d).1.score = wrapInt32 (g.score + 1) ∧
    (animateShipCollisionEvent g ship d).2.2.isActive = false ∧
    (animateShipCollisionEvent g ship d).2.1.scale =
      ⟨ship.scale.x * (6 / 5), ship.scale.y * (6 / 5)⟩ := by
  unfold animateShipCollisionEvent
  dsimp only
  split_ifs <;>
    simp [GameObject.setStatus, GameObject.scaleGameObject, GameObject.setScaleMatrix,
      defaultScaleFactor]

theorem mainInit_initial (M : MathLib α) : Initial (mainInit M) := by
  simp [Initial, mainInit, init3Pickups, GameObject.new, GameObject.setTransformationMatrix,
    GameObject.setRotateMatrix, GameObject.setScaleMatrix, GameObject.setTranslateMatrix]

theorem scenarioBStart_initial (M : MathLib α) : Initial (scenarioBStart M) := by
  simp [Initial, scenarioBStart, mainInit, GameObject.new, GameObject.setTransformationMatrix,
    GameObject.setRotateMatrix, GameObject.setScaleMatrix, GameObject.setTranslateMatrix]

/-! ## Scenario A -/

theorem scenarioA_check (M : MathLib α) :
    checkShipDiamondCollision (GameObject.new M 0 0 ⟨9 / 100, 6 / 100⟩)
      (GameObject.new M (7 / 100) (7 / 100) ⟨7 / 100, 7 / 100⟩) = false := by
  obtain ⟨hp, -, hs, -, -, -, ha⟩ := GameObject.new_fields M 0 0 ⟨9 / 100, 6 / 100⟩
  obtain ⟨hp', -, hs', -, -, -, ha'⟩ :=
    GameObject.new_fields M (7 / 100) (7 / 100) ⟨7 / 100, 7 / 100⟩
  simp only [checkShipDiamondCollision, hp, hs, ha, hp', hs', ha']
  norm_num

theorem scenarioA_check_near (M : MathLib α) :
    checkShipDiamondCollision (GameObject.new M 0 0 ⟨9 / 100, 6 / 100⟩)
      (GameObject.new M (7 / 100) (6 / 100) ⟨7 / 100, 7 / 100⟩) = true := by
  obtain ⟨hp, -, hs, -, -, -, ha⟩ := GameObject.new_fields M 0 0 ⟨9 / 100, 6 / 100⟩
  obtain ⟨hp', -, hs', -, -, -, ha'⟩ :=
    GameObject.new_fields M (7 / 100) (6 / 100) ⟨7 / 100, 7 / 100⟩
  simp only [checkShipDiamondCollision, hp, hs, ha, hp', hs', ha']
  norm_num

/-- C1 (as amended): with the ship of `main` at `(0,0)`, scale `(0.09,0.06)`,
score 0, and an active pickup at `(0.07,0.07)` of scale `(0.07,0.07)`,
`checkShipDiamondCollision` returns false (`0 + 0.06 < 0.07` on the y axis) and
one collision pass leaves globals, ship and pickup unchanged; with the pickup at
`(0.07,0.06)` instead it returns true and after one collision pass the score is 1,
the pickup is inactive and the ship scale is `(0.108, 0.072)`. -/
theorem scenarioA_collision_pass (M : MathLib α) :
    (checkShipDiamondCollision (GameObject.new M 0 0 ⟨9 / 100, 6 / 100⟩)
        (GameObject.new M (7 / 100) (7 / 100) ⟨7 / 100, 7 / 100⟩) = false ∧
      collisionLoop (mainInit M).g (GameObject.new M 0 0 ⟨9 / 100, 6 / 100⟩)
          [GameObject.new M (7 / 100) (7 / 100) ⟨7 / 100, 7 / 100⟩] =
        ((mainInit M).g, GameObject.new M 0 0 ⟨9 / 100, 6 / 100⟩,
          [GameObject.new M (7 / 100) (7 / 100) ⟨7 / 100, 7 / 100⟩])) ∧
    (checkShipDiamondCollision (GameObject.new M 0 0 ⟨9 / 100, 6 / 100⟩)
        (GameObject.new M (7 / 100) (6 / 100) ⟨7 / 100, 7 / 100⟩) = true ∧
      (collisionLoop (mainInit M).g (GameObject.new M 0 0 ⟨9 / 100, 6 / 100⟩)
          [GameObject.new M (7 / 100) (6 / 100) ⟨7 / 100, 7 / 100⟩]).1.score = 1 ∧
      (collisionLoop (mainInit M).g (GameObject.new M 0 0 ⟨9 / 100, 6 / 100⟩)
          [GameObject.new M (7 / 100) (6 / 100) ⟨7 / 100, 7 / 100⟩]).2.2.map
            (fun d => d.isActive) = [false] ∧
      (collisionLoop (mainInit M).g (GameObject.new M 0 0 ⟨9 / 100, 6 / 100⟩)
          [GameObject.new M (7 / 100) (6 / 100) ⟨7 / 100, 7 / 100⟩]).2.1.scale =
        ⟨108 / 1000, 72 / 1000⟩) := by
  have h1 := scenarioA_check M
  have h2 := scenarioA_check_near M
  obtain ⟨e1, e2, e3⟩ := animateShipCollisionEvent_fields (mainInit M).g
    (GameObject.new M 0 0 ⟨9 / 100, 6 / 100⟩)
    (GameObject.new M (7 / 100) (6 / 100) ⟨7 / 100, 7 / 100⟩)
  have hg : (mainInit M).g.score = 0 := rfl
  refine ⟨⟨h1, ?_⟩, h2, ?_, ?_, ?_⟩
  · simp only [collisionLoop, collisionIter, h1]
    rfl
  · simp only [collisionLoop, collisionIter, h2, if_true, e1, hg]
    exact wrapInt32_of_range _ (by omega) (by omega)
  · simp only [collisionLoop, collisionIter, h2, if_true, List.map, e2]
  · simp only [collisionLoop, collisionIter, h2, if_true, e3,
      (GameObject.new_fields M 0 0 ⟨9 / 100, 6 / 100⟩).2.2.1]
    norm_num

/-! ## Rotation animator -/

theorem animateTicks_running (M : MathLib α) (g : Globals α) (ship : GameObject α)
    (ha : g.animatingShipRotation = true) (hc : g.currFrameCount = 0) (n : Nat) (hn : n ≤ 9) :
    (animateTicks M n (g, ship)).1 = { g with currFrameCount := (n : α) } ∧
    (animateTicks M n (g, ship)).2.prevTheta = ship.prevTheta := by
  induction n with
  | zero =>
    refine ⟨?_, rfl⟩
    simp only [animateTicks, Nat.cast_zero, ← hc]
  | succ k ih =>
    obtain ⟨h1, h2⟩ := ih (by omega)
    have hk : (10 : α) ≠ (k : α) + 1 := by
      intro h
      have h' : ((10 : Nat) : α) = ((k + 1 : Nat) : α) := by push_cast; exact h
      have := Nat.cast_injective h'
      omega
    simp only [animateTicks, animateShipRotation, h1, ha, if_true, totalAnimationFrames, hk,
      if_false, Nat.cast_succ]
    exact ⟨trivial, h2⟩

theorem animateShipRotation_last (M : MathLib α) (g : Globals α) (ship : GameObject α)
    (ha : g.animatingShipRotation = true) (hc : g.currFrameCount = 9) :
    (animateShipRotation M g ship).2.theta =
      getNormalizedAngle M (-(ship.prevTheta + g.animAnglePerFrame * 10)) ∧
    (animateShipRotation M g ship).2.prevTheta =
      -getNormalizedAngle M (-(ship.prevTheta + g.animAnglePerFrame * 10)) ∧
    (animateShipRotation M g ship).1.animatingShipRotation = false ∧
    (animateShipRotation M g ship).1.currFrameCount = 0 := by
  have h10 : (9 : α) + 1 = 10 := by norm_num
  simp [animateShipRotation, ha, hc, h10, totalAnimationFrames, GameObject.rotateGameObject,
    GameObject.setRotateMatrix]

theorem animateTicks_ten (M : MathLib α) (g : Globals α) (ship : GameObject α) (T : α)
    (hc : g.currFrameCount = 0) :
    (animateTicks M 10 (rotationTrigger g ship.prevTheta T, ship)).2.theta =
        getNormalizedAngle M (-T) ∧
    (animateTicks M 10 (rotationTrigger g ship.prevTheta T, ship)).2.prevTheta =
        -getNormalizedAngle M (-T) ∧
    (animateTicks M 10 (rotationTrigger g ship.prevTheta T, ship)).1.animatingShipRotation
        = false ∧
    (animateTicks M 10 (rotationTrigger g ship.prevTheta T, ship)).1.currFrameCount = 0 := by
  obtain ⟨h1, h2⟩ := animateTicks_running M (rotationTrigger g ship.prevTheta T) ship rfl hc 9
    (le_refl 9)
  have hstep : animateTicks M 10 (rotationTrigger g ship.prevTheta T, ship) =
      animateShipRotation M (animateTicks M 9 (rotationTrigger g ship.prevTheta T, ship)).1
        (animateTicks M 9 (rotationTrigger g ship.prevTheta T, ship)).2 := rfl
  have ha9 :
      (animateTicks M 9 (rotationTrigger g ship.prevTheta T, ship)).1.animatingShipRotation
        = true := by rw [h1]; rfl
  have hc9 : (animateTicks M 9 (rotationTrigger g ship.prevTheta T, ship)).1.currFrameCount
      = 9 := by rw [h1]; simp
  have hp9 : (animateTicks M 9 (rotationTrigger g ship.prevTheta T, ship)).1.animAnglePerFrame
      = (T - ship.prevTheta) / 10 := by rw [h1]; rfl
  have hT : -(ship.prevTheta + (T - ship.prevTheta) / 10 * 10) = -T := by ring
  rw [hstep]
  have hlast := animateShipRotation_last M _
    (animateTicks M 9 (rotationTrigger g ship.prevTheta T, ship)).2 ha9 hc9
  rw [h2, hp9, hT] at hlast
  exact hlast

/-- C5 (as amended): from the Idle animator state, after the trigger for a
target `T` and exactly 10 calls of `animateShipRotation`, the ship's theta is
`getNormalizedAngle (-T)`: it is `-T` when `T > -2π` and `-T - 2π` when
`T ≤ -2π`; and the animator is Idle again. -/
theorem animator_convergence (M : MathLib α) (g : Globals α) (ship : GameObject α) (T : α)
    (_hidle : g.animatingShipRotation = false) (hc : g.currFrameCount = 0) :
    (animateTicks M 10 (rotationTrigger g ship.prevTheta T, ship)).2.theta =
        getNormalizedAngle M (-T) ∧
    (-(M.pi * 2) < T →
      (animateTicks M 10 (rotationTrigger g ship.prevTheta T, ship)).2.theta = -T) ∧
    (T ≤ -(M.pi * 2) →
      (animateTicks M 10 (rotationTrigger g ship.prevTheta T, ship)).2.theta
        = -T - M.pi * 2) ∧
    (animateTicks M 10 (rotationTrigger g ship.prevTheta T, ship)).1.animatingShipRotation
        = false ∧
    (animateTicks M 10 (rotationTrigger g ship.prevTheta T, ship)).1.currFrameCount = 0 := by
  obtain ⟨h1, -, h3, h4⟩ := animateTicks_ten M g ship T hc
  refine ⟨h1, fun hT => ?_, fun hT => ?_, h3, h4⟩
  · rw [h1, getNormalizedAngle, if_neg (by linarith)]
  · rw [h1, getNormalizedAngle, if_pos (by linarith)]

/-! ## Normalization -/

theorem rotateGameObject_theta (M : MathLib α) (g : GameObject α) (t : α) :
    (g.rotateGameObject M t).theta = getNormalizedAngle M t := rfl

theorem getNormalizedAngle_range (M : MathLib α) (t : α) (h0 : 0 ≤ t) (h4 : t < M.pi * 4) :
    0 ≤ getNormalizedAngle M t ∧ getNormalizedAngle M t < M.pi * 2 := by
  unfold getNormalizedAngle
  split_ifs with h
  · constructor <;> linarith
  · exact ⟨h0, lt_of_not_ge h⟩

theorem getNormalizedAngle_four_pi (M : MathLib α) (hpi : 0 < M.pi) :
    getNormalizedAngle M (M.pi * 4) = M.pi * 2 := by
  have h : M.pi * 4 ≥ M.pi * 2 := by linarith
  simp only [getNormalizedAngle, h, if_true]
  ring

/-- C6 (as amended): for every angle `t` with `0 ≤ t < 4π`, after
`rotateGameObject(t)` the object's theta lies in `[0, 2π)`; `rotateGameObject(0)`
leaves theta `0`; `rotateGameObject(2π)` leaves theta `0`; and
`rotateGameObject(4π)` leaves theta `2π` (one subtraction only). -/
theorem rotateGameObject_normalization (M : MathLib α) (g : GameObject α) (t : α)
    (hpi : 0 < M.pi) (h0 : 0 ≤ t) (h4 : t < M.pi * 4) :
    (0 ≤ (g.rotateGameObject M t).theta ∧ (g.rotateGameObject M t).theta < M.pi * 2) ∧
    (g.rotateGameObject M 0).theta = 0 ∧
    (g.rotateGameObject M (M.pi * 2)).theta = 0 ∧
    (g.rotateGameObject M (M.pi * 4)).theta = M.pi * 2 := by
  refine ⟨getNormalizedAngle_range M t h0 h4, ?_, ?_, ?_⟩
  · have h : ¬ (0 ≥ M.pi * 2) := by linarith
    simp [rotateGameObject_theta, getNormalizedAngle, h]
  · simp [rotateGameObject_theta, getNormalizedAngle]
  · rw [rotateGameObject_theta, getNormalizedAngle_four_pi M hpi]

/-! ## Reset -/

theorem scenarioB_facts (M : MathLib α) :
    (scenarioB M).g.score = 3 ∧ (scenarioB M).g.isGameOver = true ∧
    (scenarioB M).ship.isActive = false ∧
    (scenarioB M).diamonds.map (fun d => d.isActive) = [false, false, false] ∧
    (scenarioB M).ship.scale = ⟨15552 / 100000, 10368 / 100000⟩ ∧
    (scenarioB M).ship.originalScale = ⟨9 / 100, 6 / 100⟩ ∧
    (scenarioB M).ship.originalPosition = ⟨0, 0, 0⟩ ∧
    (scenarioB M).diamonds.map (fun d => d.originalPosition) =
      [⟨0, 0, 0⟩, ⟨0, 0, 0⟩, ⟨0, 0, 0⟩] := by
  norm_num [scenarioB, collisionPass, collisionLoop, collisionIter, checkShipDiamondCollision,
    animateShipCollisionEvent, mainInit, GameObject.new, GameObject.setStatus,
    GameObject.scaleGameObject, GameObject.setScaleMatrix, GameObject.setTranslateMatrix,
    GameObject.setRotateMatrix, GameObject.setTransformationMatrix, defaultScaleFactor,
    scenarioBStart, wrapInt32]

theorem keyCallback_restart (M : MathLib α) (w : World α) (scancode mods : Int) :
    (keyCallback M w GLFW_KEY_R scancode GLFW_PRESS mods).g.score = 0 ∧
    (keyCallback M w GLFW_KEY_R scancode GLFW_PRESS mods).g.isGameOver = false ∧
    (keyCallback M w GLFW_KEY_R scancode GLFW_PRESS mods).ship =
      w.ship.resetAllStateToDefault M ∧
    (keyCallback M w GLFW_KEY_R scancode GLFW_PRESS mods).diamonds =
      w.diamonds.map (fun d => d.resetAllStateToDefault M) := by
  simp [keyCallback, resetGame]

/-- C7: `resetAllStateToDefault` yields position = originalPosition, scale =
originalScale, theta = prevTheta = 0 and isActive = true, whatever the state
before, with the translate, scale, rotate and composite matrices recomputed from
these values; a second call returns the identical state; the restart command
(key R pressed) sets score 0 and isGameOver false and applies this reset to the
ship and to every pickup; and after scenario B (score 3, game over, ship
inactive and grown) it gives score 0, no game over, the ship and all pickups
active, the ship scale `(0.09, 0.06)` again and all positions at spawn. -/
theorem reset_restores_spawn (M : MathLib α) (g : GameObject α) (w : World α)
    (scancode mods : Int) :
    ((g.resetAllStateToDefault M).position = g.originalPosition ∧
      (g.resetAllStateToDefault M).scale = g.originalScale ∧
      (g.resetAllStateToDefault M).theta = 0 ∧
      (g.resetAllStateToDefault M).prevTheta = 0 ∧
      (g.resetAllStateToDefault M).isActive = true ∧
      (g.resetAllStateToDefault M).originalPosition = g.originalPosition ∧
      (g.resetAllStateToDefault M).originalScale = g.originalScale) ∧
    ((g.resetAllStateToDefault M).translateMatrix =
        ![![1, 0, 0, 0], ![0, 1, 0, 0], ![0, 0, 1, 0],
          ![g.originalPosition.x, g.originalPosition.y, 0, 1]] ∧
      (g.resetAllStateToDefault M).scaleMatrix =
        ![![g.originalScale.x, 0, 0, 0], ![0, g.originalScale.y, 0, 0], ![0, 0, 1, 0],
          ![0, 0, 0, 1]] ∧
      (g.resetAllStateToDefault M).rotateMatrix =
        ![![M.cos 0, -M.sin 0, 0, 0], ![M.sin 0, M.cos 0, 0, 0], ![0, 0, 1, 0],
          ![0, 0, 0, 1]] ∧
      (g.resetAllStateToDefault M).transformationMatrix =
        Mat4.mul (Mat4.mul (g.resetAllStateToDefault M).translateMatrix
          (g.resetAllStateToDefault M).rotateMatrix) (g.resetAllStateToDefault M).scaleMatrix) ∧
    (g.resetAllStateToDefault M).resetAllStateToDefault M = g.resetAllStateToDefault M ∧
    ((keyCallback M w GLFW_KEY_R scancode GLFW_PRESS mods).g.score = 0 ∧
      (keyCallback M w GLFW_KEY_R scancode GLFW_PRESS mods).g.isGameOver = false ∧
      (keyCallback M w GLFW_KEY_R scancode GLFW_PRESS mods).ship =
        w.ship.resetAllStateToDefault M ∧
      (keyCallback M w GLFW_KEY_R scancode GLFW_PRESS mods).diamonds =
        w.diamonds.map (fun d => d.resetAllStateToDefault M)) ∧
    ((scenarioB M).g.score = 3 ∧ (scenarioB M).g.isGameOver = true ∧
      (scenarioB M).ship.isActive = false ∧
      (scenarioB M).ship.scale = ⟨15552 / 100000, 10368 / 100000⟩ ∧
      (keyCallback M (scenarioB M) GLFW_KEY_R scancode GLFW_PRESS mods).g.score = 0 ∧
      (keyCallback M (scenarioB M) GLFW_KEY_R scancode GLFW_PRESS mods).g.isGameOver = false ∧
      (keyCallback M (scenarioB M) GLFW_KEY_R scancode GLFW_PRESS mods).ship.isActive = true ∧
      (keyCallback M (scenarioB M) GLFW_KEY_R scancode GLFW_PRESS mods).ship.scale =
        ⟨9 / 100, 6 / 100⟩ ∧
      (keyCallback M (scenarioB M) GLFW_KEY_R scancode GLFW_PRESS mods).ship.position =
        ⟨0, 0, 0⟩ ∧
      (keyCallback M (scenarioB M) GLFW_KEY_R scancode GLFW_PRESS mods).diamonds.map
        (fun d => (d.isActive, d.position)) =
          [(true, ⟨0, 0, 0⟩), (true, ⟨0, 0, 0⟩), (true, ⟨0, 0, 0⟩)]) := by
  obtain ⟨k1, k2, k3, k4⟩ := keyCallback_restart M (scenarioB M) scancode mods
  obtain ⟨b1, b2, b3, b4, b5, b6, b7, b8⟩ := scenarioB_facts M
  refine ⟨⟨rfl, rfl, rfl, rfl, rfl, rfl, rfl⟩, ⟨rfl, rfl, rfl, rfl⟩, rfl,
    keyCallback_restart M w scancode mods, b1, b2, b3, b5, k1, k2, ?_, ?_, ?_, ?_⟩
  · rw [k3]; rfl
  · rw [k3]; exact b6
  · rw [k3]; exact b7
  · rw [k4, List.map_map]
    have hf : ((fun d : GameObject α => (d.isActive, d.position)) ∘
        fun d : GameObject α => d.resetAllStateToDefault M) =
        (fun p : Vec3 α => (true, p)) ∘ fun d : GameObject α => d.originalPosition := rfl
    rw [hf, ← List.map_map, b8]
    rfl

/-! ## Cursor callback -/

theorem cursorPosCallback_eq_none_iff (M : MathLib α) (w : World α) (xpos ypos : α) :
    cursorPosCallback M w xpos ypos = none ↔
      (((convertLocation xpos ypos).x ≠ w.prevLocation.x ∨
          (convertLocation xpos ypos).y ≠ w.prevLocation.y) ∧
        (convertLocation xpos ypos).x - w.ship.position.x = 0) := by
  unfold cursorPosCallback checkedDiv
  dsimp only
  split_ifs <;> simp_all

theorem cursorPosCallback_of_ne (M : MathLib α) (w : World α) (xpos ypos : α)
    (hloc : (convertLocation xpos ypos).x ≠ w.prevLocation.x ∨
      (convertLocation xpos ypos).y ≠ w.prevLocation.y)
    (hdx : (convertLocation xpos ypos).x - w.ship.position.x ≠ 0) :
    cursorPosCallback M w xpos ypos = some (cursorPosCallbackWith M
      { w with location := convertLocation xpos ypos, prevLocation := convertLocation xpos ypos }
      ((convertLocation xpos ypos).x - w.ship.position.x)
      ((convertLocation xpos ypos).y - w.ship.position.y)
      (M.atan (((convertLocation xpos ypos).y - w.ship.position.y) /
        ((convertLocation xpos ypos).x - w.ship.position.x)))) := by
  unfold cursorPosCallback checkedDiv
  dsimp only
  simp only [hloc, hdx, if_true, if_false]

/-- C9 (evaluation at the failing inputs): `cursorPosCallback` evaluates the
quotient of line 256 for every changed pointer location, with no test of the
divisor, so it has no value exactly when the location changed and the horizontal
offset is zero.  From the state of `main`, a pointer at pixel `(400, 0)`
(straight above the ship) gives no value; and after a pointer event at pixel
`(0, 0)`, a pointer at pixel `(400, 400)` (on the ship, both offsets zero) gives
no value. -/
theorem cursorPosCallback_zero_offset (M : MathLib α) :
    (∀ (w : World α) (xpos ypos : α),
      cursorPosCallback M w xpos ypos = none ↔
        (((convertLocation xpos ypos).x ≠ w.prevLocation.x ∨
            (convertLocation xpos ypos).y ≠ w.prevLocation.y) ∧
          (convertLocation xpos ypos).x - w.ship.position.x = 0)) ∧
    cursorPosCallback M (mainInit M) 400 0 = none ∧
    (∃ w1, cursorPosCallback M (mainInit M) 0 0 = some w1 ∧
      cursorPosCallback M w1 400 400 = none) := by
  have hm : (mainInit M).ship.position = ⟨0, 0, 0⟩ := rfl
  have hl : (mainInit M).prevLocation = ⟨0, 0⟩ := rfl
  refine ⟨cursorPosCallback_eq_none_iff M, ?_, ?_⟩
  · rw [cursorPosCallback_eq_none_iff, hm, hl]
    norm_num [convertLocation]
  · refine ⟨_, cursorPosCallback_of_ne M (mainInit M) 0 0 ?_ ?_, ?_⟩
    · rw [hl]; norm_num [convertLocation]
    · rw [hm]; norm_num [convertLocation]
    · rw [cursorPosCallback_eq_none_iff]
      norm_num [convertLocation, cursorPosCallbackWith, mainInit, GameObject.new,
        GameObject.setTranslateMatrix, GameObject.setScaleMatrix, GameObject.setRotateMatrix,
        GameObject.setTransformationMatrix]

theorem iterate_animatorTick (M : MathLib α) (w : World α) (n : Nat) :
    (animatorTick M)^[n] w =
      { w with g := (animateTicks M n (w.g, w.ship)).1
               ship := (animateTicks M n (w.g, w.ship)).2 } := by
  induction n with
  | zero => rfl
  | succ k ih =>
    rw [Function.iterate_succ_apply', ih]
    rfl

theorem animateShipRotation_position (M : MathLib α) (g : Globals α) (ship : GameObject α) :
    (animateShipRotation M g ship).2.position = ship.position := by
  unfold animateShipRotation
  dsimp only
  split_ifs <;> rfl

theorem animateTicks_position (M : MathLib α) (s : Globals α × GameObject α) (n : Nat) :
    (animateTicks M n s).2.position = s.2.position := by
  induction n with
  | zero => rfl
  | succ k ih =>
    simp only [animateTicks]
    rw [animateShipRotation_position, ih]

theorem targetAngle_first (M : MathLib α) (t : α) (h0 : 0 < t) (h1 : t < M.pi / 2) :
    targetAngle M 0 (-1 / 4) (-1) t = M.pi / 2 + t := by
  have hx : ¬ ((-1 / 4 : α) > 0) := by norm_num
  have hy : ¬ ((-1 : α) > 0) := by norm_num
  have hccw : getCCWAngleFromXAxis M (-1 / 4) (-1) t = M.pi + t := by
    simp [getCCWAngleFromXAxis, hx, hy]
  have habs : ¬ (|M.pi + t - M.pi / 2 - 0| > M.pi) := by
    rw [abs_of_nonneg (by linarith)]
    linarith
  simp only [targetAngle, hccw, habs, if_false]
  ring

theorem targetAngle_second (M : MathLib α) (t1 t2 : α) (h0 : 0 < t2) (h12 : t2 < t1)
    (h1 : t1 < M.pi / 2) :
    getCCWAngleFromXAxis M 1 (1 / 4) t2 - M.pi / 2 = t2 - M.pi / 2 ∧
    targetAngle M (M.pi / 2 + t1) 1 (1 / 4) t2 = t2 - M.pi / 2 - M.pi * 2 := by
  have hx : ((1 : α) > 0) := by norm_num
  have habs : |t2 - M.pi / 2 - (M.pi / 2 + t1)| > M.pi := by
    rw [abs_of_neg (by linarith)]
    linarith
  have hccw : getCCWAngleFromXAxis M 1 (1 / 4) t2 = t2 := by
    simp [getCCWAngleFromXAxis, hx]
  refine ⟨by rw [hccw], ?_⟩
  simp only [targetAngle, hccw, habs, if_true]
  ring

/-! ## Two pointer events with an animation in between -/

theorem long_rotation (M : MathLib α) (t1 t2 : α) (h4 : M.atan 4 = t1)
    (h14 : M.atan (1 / 4) = t2) (h0 : 0 < t2) (h12 : t2 < t1) (h1 : t1 < M.pi / 2) :
    ∃ w1 w3 : World α,
      cursorPosCallback M (mainInit M) 300 800 = some w1 ∧
      ((animatorTick M)^[10] w1).ship.prevTheta = M.pi / 2 + t1 ∧
      cursorPosCallback M ((animatorTick M)^[10] w1) 800 300 = some w3 ∧
      w3.g.animAnglePerFrame * 10 = t2 - t1 - M.pi * 3 := by
  have hcl1 : convertLocation (300 : α) 800 = ⟨-1 / 4, -1⟩ := by
    norm_num [convertLocation]
  have hcl2 : convertLocation (800 : α) 300 = ⟨1, 1 / 4⟩ := by
    norm_num [convertLocation]
  have hm : (mainInit M).ship.position = ⟨0, 0, 0⟩ := rfl
  have hl : (mainInit M).prevLocation = ⟨0, 0⟩ := rfl
  -- first pointer event
  have e1 := cursorPosCallback_of_ne M (mainInit M) 300 800
    (by rw [hcl1, hl]; norm_num) (by rw [hcl1, hm]; norm_num)
  rw [hcl1, hm] at e1
  have hq1 : (-1 : α) / (-1 / 4) = 4 := by norm_num
  simp only [sub_zero, hq1, h4] at e1
  -- ten animator ticks
  have hT1 := targetAngle_first M t1 (lt_trans h0 h12) h1
  have hticks := animateTicks_ten M (mainInit M).g (mainInit M).ship (M.pi / 2 + t1) rfl
  have hnorm : getNormalizedAngle M (-(M.pi / 2 + t1)) = -(M.pi / 2 + t1) := by
    rw [getNormalizedAngle, if_neg]
    intro h
    linarith
  rw [hnorm, neg_neg] at hticks
  obtain ⟨-, hprev, -, -⟩ := hticks
  have hpos := animateTicks_position M
    (rotationTrigger (mainInit M).g (mainInit M).ship.prevTheta (M.pi / 2 + t1), (mainInit M).ship)
    10
  have hw2 := iterate_animatorTick M (cursorPosCallbackWith M
    { mainInit M with location := ⟨-1 / 4, -1⟩, prevLocation := ⟨-1 / 4, -1⟩ } (-1 / 4) (-1) t1) 10
  simp only [cursorPosCallbackWith] at hw2 e1
  have hp0 : (mainInit M).ship.prevTheta = 0 := rfl
  rw [hp0, hT1] at hw2 e1
  rw [hp0] at hprev hpos
  have e2 := cursorPosCallback_of_ne M
    { g := (animateTicks M 10 (rotationTrigger (mainInit M).g 0 (M.pi / 2 + t1),
          (mainInit M).ship)).1
      ship := (animateTicks M 10 (rotationTrigger (mainInit M).g 0 (M.pi / 2 + t1),
          (mainInit M).ship)).2
      diamonds := (mainInit M).diamonds
      location := ⟨-1 / 4, -1⟩
      prevLocation := ⟨-1 / 4, -1⟩ } 800 300
    (by rw [hcl2]; norm_num) (by rw [hcl2, hpos, hm]; norm_num)
  rw [hcl2] at e2
  simp only [hpos, hm, sub_zero, div_one, h14] at e2
  rw [← hw2] at e2
  refine ⟨_, _, e1, ?_, e2, ?_⟩
  · rw [hw2]
    exact hprev
  · simp only [cursorPosCallbackWith, hprev, (targetAngle_second M t1 t2 h0 h12 h1).2]
    simp only [rotationTrigger, totalAnimationFrames]
    ring

end Theorems

/-! ## Statements over the real numbers

The closed statements below take `α = ℝ` and the real `π`, `cos`, `sin` and
`arctan` for the math library. -/

section Reals

/-- C1 (counterexample): for the ship at `(0,0)` with scale `(0.09,0.06)` and the
active pickup at `(0.07,0.07)` with scale `(0.07,0.07)`,
`checkShipDiamondCollision` returns false, and after one collision pass the score
is still 0. -/
theorem scenarioA_no_collision :
    checkShipDiamondCollision
        (GameObject.new (⟨Real.pi, Real.cos, Real.sin, Real.arctan⟩ : MathLib ℝ) 0 0
          ⟨9 / 100, 6 / 100⟩)
        (GameObject.new (⟨Real.pi, Real.cos, Real.sin, Real.arctan⟩ : MathLib ℝ) (7 / 100)
          (7 / 100) ⟨7 / 100, 7 / 100⟩) = false ∧
    (collisionLoop (mainInit (⟨Real.pi, Real.cos, Real.sin, Real.arctan⟩ : MathLib ℝ)).g
        (GameObject.new (⟨Real.pi, Real.cos, Real.sin, Real.arctan⟩ : MathLib ℝ) 0 0
          ⟨9 / 100, 6 / 100⟩)
        [GameObject.new (⟨Real.pi, Real.cos, Real.sin, Real.arctan⟩ : MathLib ℝ) (7 / 100)
          (7 / 100) ⟨7 / 100, 7 / 100⟩]).1.score = 0 := by
  have h := scenarioA_check (⟨Real.pi, Real.cos, Real.sin, Real.arctan⟩ : MathLib ℝ)
  refine ⟨h, ?_⟩
  simp only [collisionLoop, collisionIter, h]
  rfl

/-- C3 (witness): the start of scenario B (three pickups on the ship) is an
initial state; the state after one collision pass is reachable from it and has
score 3, game over and the ship inactive; the invariant holds there and a further
collision pass returns it unchanged. -/
theorem reachable_session_invariant_witness :
    Initial (scenarioBStart (⟨Real.pi, Real.cos, Real.sin, Real.arctan⟩ : MathLib ℝ)) ∧
    Reachable ⟨Real.pi, Real.cos, Real.sin, Real.arctan⟩
      (scenarioBStart (⟨Real.pi, Real.cos, Real.sin, Real.arctan⟩ : MathLib ℝ))
      (scenarioB (⟨Real.pi, Real.cos, Real.sin, Real.arctan⟩ : MathLib ℝ)) ∧
    ((scenarioB (⟨Real.pi, Real.cos, Real.sin, Real.arctan⟩ : MathLib ℝ)).g.score = 3 ∧
      (scenarioB (⟨Real.pi, Real.cos, Real.sin, Real.arctan⟩ : MathLib ℝ)).g.isGameOver = true ∧
      (scenarioB (⟨Real.pi, Real.cos, Real.sin, Real.arctan⟩ : MathLib ℝ)).ship.isActive = false) ∧
    ((0 ≤ (scenarioB (⟨Real.pi, Real.cos, Real.sin, Real.arctan⟩ : MathLib ℝ)).g.score ∧
        (scenarioB (⟨Real.pi, Real.cos, Real.sin, Real.arctan⟩ : MathLib ℝ)).g.score ≤ 3) ∧
      ((scenarioB (⟨Real.pi, Real.cos, Real.sin, Real.arctan⟩ : MathLib ℝ)).g.isGameOver = true ↔
        (scenarioB (⟨Real.pi, Real.cos, Real.sin, Real.arctan⟩ : MathLib ℝ)).g.score = 3) ∧
      ((scenarioB (⟨Real.pi, Real.cos, Real.sin, Real.arctan⟩ : MathLib ℝ)).ship.isActive = false ↔
        (scenarioB (⟨Real.pi, Real.cos, Real.sin, Real.arctan⟩ : MathLib ℝ)).g.score = 3) ∧
      ((scenarioB (⟨Real.pi, Real.cos, Real.sin, Real.arctan⟩ : MathLib ℝ)).g.isGameOver = true →
        collisionPass (scenarioB (⟨Real.pi, Real.cos, Real.sin, Real.arctan⟩ : MathLib ℝ)) =
          scenarioB (⟨Real.pi, Real.cos, Real.sin, Real.arctan⟩ : MathLib ℝ))) := by
  have hi := scenarioBStart_initial (⟨Real.pi, Real.cos, Real.sin, Real.arctan⟩ : MathLib ℝ)
  have hr : Reachable ⟨Real.pi, Real.cos, Real.sin, Real.arctan⟩
      (scenarioBStart (⟨Real.pi, Real.cos, Real.sin, Real.arctan⟩ : MathLib ℝ))
      (scenarioB (⟨Real.pi, Real.cos, Real.sin, Real.arctan⟩ : MathLib ℝ)) :=
    Reachable.step _ _ Reachable.start (Step.collision _)
  obtain ⟨b1, b2, b3, -⟩ := scenarioB_facts (⟨Real.pi, Real.cos, Real.sin, Real.arctan⟩ : MathLib ℝ)
  exact ⟨hi, hr, ⟨b1, b2, b3⟩, reachable_session_invariant _ _ _ hi hr⟩

/-- C4 (counterexample): in the state with score `INT_MAX = 2147483647`, the ship
of `main` active and one active pickup on it, one collision pass leaves the score
`-2147483648`, below the score before. -/
theorem collisionPass_score_wraps :
    (collisionLoop (⟨false, 0, 0, 2147483647, false⟩ : Globals ℝ)
        (GameObject.new (⟨Real.pi, Real.cos, Real.sin, Real.arctan⟩ : MathLib ℝ) 0 0 ⟨9 / 100, 6 / 100⟩)
        [GameObject.new (⟨Real.pi, Real.cos, Real.sin, Real.arctan⟩ : MathLib ℝ) 0 0 ⟨7 / 100, 7 / 100⟩]).1.score = -2147483648 ∧
    ¬ ((⟨false, 0, 0, 2147483647, false⟩ : Globals ℝ).score ≤
      (collisionLoop (⟨false, 0, 0, 2147483647, false⟩ : Globals ℝ)
        (GameObject.new (⟨Real.pi, Real.cos, Real.sin, Real.arctan⟩ : MathLib ℝ) 0 0 ⟨9 / 100, 6 / 100⟩)
        [GameObject.new (⟨Real.pi, Real.cos, Real.sin, Real.arctan⟩ : MathLib ℝ) 0 0 ⟨7 / 100, 7 / 100⟩]).1.score) := by
  obtain ⟨hp, -, hs, -, -, -, ha⟩ := GameObject.new_fields (⟨Real.pi, Real.cos, Real.sin, Real.arctan⟩ : MathLib ℝ) 0 0 ⟨9 / 100, 6 / 100⟩
  obtain ⟨hp', -, hs', -, -, -, ha'⟩ := GameObject.new_fields (⟨Real.pi, Real.cos, Real.sin, Real.arctan⟩ : MathLib ℝ) 0 0 ⟨7 / 100, 7 / 100⟩
  have hc : checkShipDiamondCollision (GameObject.new (⟨Real.pi, Real.cos, Real.sin, Real.arctan⟩ : MathLib ℝ) 0 0 ⟨9 / 100, 6 / 100⟩)
      (GameObject.new (⟨Real.pi, Real.cos, Real.sin, Real.arctan⟩ : MathLib ℝ) 0 0 ⟨7 / 100, 7 / 100⟩) = true := by
    simp only [checkShipDiamondCollision, hp, hs, ha, hp', hs', ha']
    norm_num
  have he := (animateShipCollisionEvent_fields (⟨false, 0, 0, 2147483647, false⟩ : Globals ℝ)
    (GameObject.new (⟨Real.pi, Real.cos, Real.sin, Real.arctan⟩ : MathLib ℝ) 0 0 ⟨9 / 100, 6 / 100⟩) (GameObject.new (⟨Real.pi, Real.cos, Real.sin, Real.arctan⟩ : MathLib ℝ) 0 0 ⟨7 / 100, 7 / 100⟩)).1
  have hv : (collisionLoop (⟨false, 0, 0, 2147483647, false⟩ : Globals ℝ)
      (GameObject.new (⟨Real.pi, Real.cos, Real.sin, Real.arctan⟩ : MathLib ℝ) 0 0 ⟨9 / 100, 6 / 100⟩)
      [GameObject.new (⟨Real.pi, Real.cos, Real.sin, Real.arctan⟩ : MathLib ℝ) 0 0 ⟨7 / 100, 7 / 100⟩]).1.score = -2147483648 := by
    simp only [collisionLoop, collisionIter, hc, if_true, he]
    decide
  refine ⟨hv, ?_⟩
  rw [hv]
  decide

/-- C4 (witness): from the start of scenario B (score 0, three active pickups on
the ship) the bounds hold, the pass collects all three pickups, and the score
after it is 3 = 0 + 3. -/
theorem collisionPass_scoring_witness :
    (-2147483648 ≤ (scenarioBStart (⟨Real.pi, Real.cos, Real.sin, Real.arctan⟩ : MathLib ℝ)).g.score ∧
      (scenarioBStart (⟨Real.pi, Real.cos, Real.sin, Real.arctan⟩ : MathLib ℝ)).g.score + ((scenarioBStart (⟨Real.pi, Real.cos, Real.sin, Real.arctan⟩ : MathLib ℝ)).diamonds.length : Int)
        ≤ 2147483647) ∧
    (collisionLoop (scenarioBStart (⟨Real.pi, Real.cos, Real.sin, Real.arctan⟩ : MathLib ℝ)).g (scenarioBStart (⟨Real.pi, Real.cos, Real.sin, Real.arctan⟩ : MathLib ℝ)).ship
      (scenarioBStart (⟨Real.pi, Real.cos, Real.sin, Real.arctan⟩ : MathLib ℝ)).diamonds).1.score = 3 ∧
    (scenarioBStart (⟨Real.pi, Real.cos, Real.sin, Real.arctan⟩ : MathLib ℝ)).g.score ≤
      (collisionLoop (scenarioBStart (⟨Real.pi, Real.cos, Real.sin, Real.arctan⟩ : MathLib ℝ)).g (scenarioBStart (⟨Real.pi, Real.cos, Real.sin, Real.arctan⟩ : MathLib ℝ)).ship
        (scenarioBStart (⟨Real.pi, Real.cos, Real.sin, Real.arctan⟩ : MathLib ℝ)).diamonds).1.score ∧
    (collisionLoop (scenarioBStart (⟨Real.pi, Real.cos, Real.sin, Real.arctan⟩ : MathLib ℝ)).g (scenarioBStart (⟨Real.pi, Real.cos, Real.sin, Real.arctan⟩ : MathLib ℝ)).ship
      (scenarioBStart (⟨Real.pi, Real.cos, Real.sin, Real.arctan⟩ : MathLib ℝ)).diamonds).1.score =
      (scenarioBStart (⟨Real.pi, Real.cos, Real.sin, Real.arctan⟩ : MathLib ℝ)).g.score +
        ((List.zip (scenarioBStart (⟨Real.pi, Real.cos, Real.sin, Real.arctan⟩ : MathLib ℝ)).diamonds
            (collisionLoop (scenarioBStart (⟨Real.pi, Real.cos, Real.sin, Real.arctan⟩ : MathLib ℝ)).g (scenarioBStart (⟨Real.pi, Real.cos, Real.sin, Real.arctan⟩ : MathLib ℝ)).ship
              (scenarioBStart (⟨Real.pi, Real.cos, Real.sin, Real.arctan⟩ : MathLib ℝ)).diamonds).2.2).filter
          (fun p => p.1.isActive && !p.2.isActive)).length := by
  have hlo : -2147483648 ≤ (scenarioBStart (⟨Real.pi, Real.cos, Real.sin, Real.arctan⟩ : MathLib ℝ)).g.score := by
    show (-2147483648 : Int) ≤ 0
    decide
  have hhi : (scenarioBStart (⟨Real.pi, Real.cos, Real.sin, Real.arctan⟩ : MathLib ℝ)).g.score + ((scenarioBStart (⟨Real.pi, Real.cos, Real.sin, Real.arctan⟩ : MathLib ℝ)).diamonds.length : Int)
      ≤ 2147483647 := by
    show (0 : Int) + ((3 : Nat) : Int) ≤ 2147483647
    decide
  have h := collisionPass_scoring (scenarioBStart (⟨Real.pi, Real.cos, Real.sin, Real.arctan⟩ : MathLib ℝ)).g (scenarioBStart (⟨Real.pi, Real.cos, Real.sin, Real.arctan⟩ : MathLib ℝ)).ship
    (scenarioBStart (⟨Real.pi, Real.cos, Real.sin, Real.arctan⟩ : MathLib ℝ)).diamonds hlo hhi
  exact ⟨⟨hlo, hhi⟩, (scenarioB_facts (⟨Real.pi, Real.cos, Real.sin, Real.arctan⟩ : MathLib ℝ)).1, h.1, h.2.2.2.1⟩

/-- C5 (counterexample): from the Idle state of `main` with baseline 0, after the
trigger for the target `T = -2π` and 10 calls of `animateShipRotation`, the
ship's theta is not `-T = 2π`. -/
theorem animator_overshoot :
    (mainInit (⟨Real.pi, Real.cos, Real.sin, Real.arctan⟩ : MathLib ℝ)).g.animatingShipRotation
      = false ∧
    (mainInit (⟨Real.pi, Real.cos, Real.sin, Real.arctan⟩ : MathLib ℝ)).g.currFrameCount = 0 ∧
    (animateTicks (⟨Real.pi, Real.cos, Real.sin, Real.arctan⟩ : MathLib ℝ) 10
      (rotationTrigger (mainInit (⟨Real.pi, Real.cos, Real.sin, Real.arctan⟩ : MathLib ℝ)).g
          (mainInit (⟨Real.pi, Real.cos, Real.sin, Real.arctan⟩ : MathLib ℝ)).ship.prevTheta
          (-(Real.pi * 2)),
        (mainInit (⟨Real.pi, Real.cos, Real.sin, Real.arctan⟩ : MathLib ℝ)).ship)).2.theta
      ≠ -(-(Real.pi * 2)) := by
  have h := (animateTicks_ten (⟨Real.pi, Real.cos, Real.sin, Real.arctan⟩ : MathLib ℝ)
    (mainInit (⟨Real.pi, Real.cos, Real.sin, Real.arctan⟩ : MathLib ℝ)).g
    (mainInit (⟨Real.pi, Real.cos, Real.sin, Real.arctan⟩ : MathLib ℝ)).ship
    (-(Real.pi * 2)) rfl).1
  refine ⟨rfl, rfl, ?_⟩
  rw [h]
  have hpi := Real.pi_pos
  simp only [getNormalizedAngle, neg_neg, ge_iff_le, le_refl, if_true, sub_self]
  intro h0
  linarith

/-- C5 (witness): from the Idle state of `main`, the target `T = 1` is reached
as theta `-1` after 10 ticks, and the animator is Idle again. -/
theorem animator_convergence_witness :
    (mainInit (⟨Real.pi, Real.cos, Real.sin, Real.arctan⟩ : MathLib ℝ)).g.animatingShipRotation
      = false ∧
    (mainInit (⟨Real.pi, Real.cos, Real.sin, Real.arctan⟩ : MathLib ℝ)).g.currFrameCount = 0 ∧
    (animateTicks (⟨Real.pi, Real.cos, Real.sin, Real.arctan⟩ : MathLib ℝ) 10
      (rotationTrigger (mainInit (⟨Real.pi, Real.cos, Real.sin, Real.arctan⟩ : MathLib ℝ)).g
          (mainInit (⟨Real.pi, Real.cos, Real.sin, Real.arctan⟩ : MathLib ℝ)).ship.prevTheta 1,
        (mainInit (⟨Real.pi, Real.cos, Real.sin, Real.arctan⟩ : MathLib ℝ)).ship)).2.theta
      = -1 ∧
    (animateTicks (⟨Real.pi, Real.cos, Real.sin, Real.arctan⟩ : MathLib ℝ) 10
      (rotationTrigger (mainInit (⟨Real.pi, Real.cos, Real.sin, Real.arctan⟩ : MathLib ℝ)).g
          (mainInit (⟨Real.pi, Real.cos, Real.sin, Real.arctan⟩ : MathLib ℝ)).ship.prevTheta 1,
        (mainInit (⟨Real.pi, Real.cos, Real.sin, Real.arctan⟩ : MathLib ℝ)).ship)).1.animatingShipRotation
      = false ∧
    (animateTicks (⟨Real.pi, Real.cos, Real.sin, Real.arctan⟩ : MathLib ℝ) 10
      (rotationTrigger (mainInit (⟨Real.pi, Real.cos, Real.sin, Real.arctan⟩ : MathLib ℝ)).g
          (mainInit (⟨Real.pi, Real.cos, Real.sin, Real.arctan⟩ : MathLib ℝ)).ship.prevTheta 1,
        (mainInit (⟨Real.pi, Real.cos, Real.sin, Real.arctan⟩ : MathLib ℝ)).ship)).1.currFrameCount
      = 0 := by
  have hpi := Real.pi_pos
  have h := animator_convergence (⟨Real.pi, Real.cos, Real.sin, Real.arctan⟩ : MathLib ℝ)
    (mainInit (⟨Real.pi, Real.cos, Real.sin, Real.arctan⟩ : MathLib ℝ)).g
    (mainInit (⟨Real.pi, Real.cos, Real.sin, Real.arctan⟩ : MathLib ℝ)).ship 1 rfl rfl
  exact ⟨rfl, rfl, h.2.1 (by show -(Real.pi * 2) < 1; linarith), h.2.2.2.1, h.2.2.2.2⟩

/-- C6 (counterexample): `4π ≥ 0`, and after `rotateGameObject(4π)` the ship's
theta is `2π`, which is neither in `[0, 2π)` nor `0`. -/
theorem rotateGameObject_four_pi :
    (0 : ℝ) ≤ Real.pi * 4 ∧
    ((mainInit (⟨Real.pi, Real.cos, Real.sin, Real.arctan⟩ : MathLib ℝ)).ship.rotateGameObject
      ⟨Real.pi, Real.cos, Real.sin, Real.arctan⟩ (Real.pi * 4)).theta = Real.pi * 2 ∧
    ¬ (((mainInit (⟨Real.pi, Real.cos, Real.sin, Real.arctan⟩ : MathLib ℝ)).ship.rotateGameObject
      ⟨Real.pi, Real.cos, Real.sin, Real.arctan⟩ (Real.pi * 4)).theta < Real.pi * 2) ∧
    ((mainInit (⟨Real.pi, Real.cos, Real.sin, Real.arctan⟩ : MathLib ℝ)).ship.rotateGameObject
      ⟨Real.pi, Real.cos, Real.sin, Real.arctan⟩ (Real.pi * 4)).theta ≠ 0 := by
  have hpi := Real.pi_pos
  have h := getNormalizedAngle_four_pi (⟨Real.pi, Real.cos, Real.sin, Real.arctan⟩ : MathLib ℝ)
    hpi
  rw [rotateGameObject_theta]
  refine ⟨by linarith, h, ?_, ?_⟩
  · rw [h]; exact lt_irrefl _
  · rw [h]; show Real.pi * 2 ≠ 0; linarith

/-- C6 (witness): with the real `π > 0` and the angle `3π` in `[0, 4π)`, the
ship's theta after `rotateGameObject(3π)` lies in `[0, 2π)`, and the three fixed
values hold. -/
theorem rotateGameObject_normalization_witness :
    (0 : ℝ) < Real.pi ∧ (0 : ℝ) ≤ Real.pi * 3 ∧ Real.pi * 3 < Real.pi * 4 ∧
    ((0 ≤ ((mainInit (⟨Real.pi, Real.cos, Real.sin, Real.arctan⟩ : MathLib ℝ)).ship.rotateGameObject
          ⟨Real.pi, Real.cos, Real.sin, Real.arctan⟩ (Real.pi * 3)).theta ∧
        ((mainInit (⟨Real.pi, Real.cos, Real.sin, Real.arctan⟩ : MathLib ℝ)).ship.rotateGameObject
          ⟨Real.pi, Real.cos, Real.sin, Real.arctan⟩ (Real.pi * 3)).theta < Real.pi * 2) ∧
      ((mainInit (⟨Real.pi, Real.cos, Real.sin, Real.arctan⟩ : MathLib ℝ)).ship.rotateGameObject
          ⟨Real.pi, Real.cos, Real.sin, Real.arctan⟩ 0).theta = 0 ∧
      ((mainInit (⟨Real.pi, Real.cos, Real.sin, Real.arctan⟩ : MathLib ℝ)).ship.rotateGameObject
          ⟨Real.pi, Real.cos, Real.sin, Real.arctan⟩ (Real.pi * 2)).theta = 0 ∧
      ((mainInit (⟨Real.pi, Real.cos, Real.sin, Real.arctan⟩ : MathLib ℝ)).ship.rotateGameObject
          ⟨Real.pi, Real.cos, Real.sin, Real.arctan⟩ (Real.pi * 4)).theta = Real.pi * 2) := by
  have hpi := Real.pi_pos
  have h3 : (0 : ℝ) ≤ Real.pi * 3 := by linarith
  have h4 : Real.pi * 3 < Real.pi * 4 := by linarith
  exact ⟨hpi, h3, h4, rotateGameObject_normalization
    (⟨Real.pi, Real.cos, Real.sin, Real.arctan⟩ : MathLib ℝ)
    (mainInit (⟨Real.pi, Real.cos, Real.sin, Real.arctan⟩ : MathLib ℝ)).ship (Real.pi * 3)
    hpi h3 h4⟩

/-- C10 (evaluation at the failing input): from the state of `main`, a pointer
event at pixel `(300, 800)` and ten animator ticks leave the baseline
`prevTheta = π/2 + arctan 4`; a pointer event at pixel `(800, 300)` then hands
the animator the angle difference `arctan (1/4) - arctan 4 - 3π`, of absolute
value above `3π`, and the replaced target is farther from the baseline than the
target it replaces. -/
theorem shorter_rotation_long_way :
    ∃ w1 w3 : World ℝ,
      cursorPosCallback ⟨Real.pi, Real.cos, Real.sin, Real.arctan⟩
        (mainInit ⟨Real.pi, Real.cos, Real.sin, Real.arctan⟩) 300 800 = some w1 ∧
      ((animatorTick ⟨Real.pi, Real.cos, Real.sin, Real.arctan⟩)^[10] w1).ship.prevTheta =
        Real.pi / 2 + Real.arctan 4 ∧
      cursorPosCallback ⟨Real.pi, Real.cos, Real.sin, Real.arctan⟩
        ((animatorTick ⟨Real.pi, Real.cos, Real.sin, Real.arctan⟩)^[10] w1) 800 300 = some w3 ∧
      w3.g.animAnglePerFrame * totalAnimationFrames =
        Real.arctan (1 / 4) - Real.arctan 4 - Real.pi * 3 ∧
      Real.pi * 3 < |w3.g.animAnglePerFrame * totalAnimationFrames| ∧
      |getCCWAngleFromXAxis ⟨Real.pi, Real.cos, Real.sin, Real.arctan⟩ 1 (1 / 4)
            (Real.arctan (1 / 4)) - Real.pi / 2 - (Real.pi / 2 + Real.arctan 4)| <
        |targetAngle ⟨Real.pi, Real.cos, Real.sin, Real.arctan⟩ (Real.pi / 2 + Real.arctan 4)
            1 (1 / 4) (Real.arctan (1 / 4)) - (Real.pi / 2 + Real.arctan 4)| := by
  have hpi := Real.pi_pos
  have h0 : 0 < Real.arctan (1 / 4) := by
    have h := Real.arctan_strictMono (show (0 : ℝ) < 1 / 4 by norm_num)
    rwa [Real.arctan_zero] at h
  have h12 : Real.arctan (1 / 4) < Real.arctan 4 :=
    Real.arctan_strictMono (by norm_num)
  have h1 : Real.arctan 4 < Real.pi / 2 := Real.arctan_lt_pi_div_two 4
  obtain ⟨w1, w3, e1, hp, e2, hd⟩ :=
    long_rotation (⟨Real.pi, Real.cos, Real.sin, Real.arctan⟩ : MathLib ℝ)
      (Real.arctan 4) (Real.arctan (1 / 4)) rfl rfl h0 h12 h1
  obtain ⟨ha, ha'⟩ := targetAngle_second (⟨Real.pi, Real.cos, Real.sin, Real.arctan⟩ : MathLib ℝ)
    (Real.arctan 4) (Real.arctan (1 / 4)) h0 h12 h1
  have hd' : w3.g.animAnglePerFrame * totalAnimationFrames =
      Real.arctan (1 / 4) - Real.arctan 4 - Real.pi * 3 := hd
  refine ⟨w1, w3, e1, hp, e2, hd', ?_, ?_⟩
  · rw [hd', abs_of_neg (by linarith)]
    linarith
  · rw [ha, ha']
    show |Real.arctan (1 / 4) - Real.pi / 2 - (Real.pi / 2 + Real.arctan 4)| <
      |Real.arctan (1 / 4) - Real.pi / 2 - Real.pi * 2 - (Real.pi / 2 + Real.arctan 4)|
    rw [abs_of_neg (by linarith), abs_of_neg (by linarith)]
    linarith

end Reals

end AgarioInSpace
